import Mathlib

/-!
Shallow embedding of `src/primitives.c` from the wren prototype runtime:
the tagged value model, the symbol tables, the per-class method tables,
the primitive library and the bootstrap `registerPrimitives`.

Modelling conventions, stated once:

* The C `double` (float64) payload of numbers is idealized as `Rat`:
  arithmetic is exact and total, so properties of the carrier (such as the
  IEEE behaviour of division by zero) are inherited from the carrier, not
  re-modelled.  The primitives below apply the carrier's operation
  unconditionally, exactly as the C code applies the float64 operation.
* Heap identity (pointer identity in C) is modelled with explicit
  allocation counters: string buffers and instances draw fresh ids from
  `VM.nextId`; class objects live in the heap list `VM.classes` and are
  referenced by index, the way C code references them by pointer.
* C strings are their NUL-free byte content, as a `List Char`; `strlen`
  is `List.length` of that content.
* A primitive's C signature `Value (*)(VM*, Value*, int)` becomes
  `VM → List Value → Value × VM`: the returned `VM` carries the effect on
  the heap counter and on the output stream (`out` models stdout).
-/

namespace WrenPrim

/-- Object type tags of the value model (the `type` field of an `Obj`). -/
inductive ObjType where
  | OBJ_NUM
  | OBJ_STRING
  | OBJ_CLASS
  | OBJ_INSTANCE
deriving DecidableEq

/-- A runtime `Value`: tagged union of number, string, class and instance.
`str` carries the identity of its owned buffer; `inst` carries the
reference to its class and its own allocation identity. -/
inductive Value where
  | num (value : Rat)
  | str (bufferId : Nat) (chars : List Char)
  | cls (classRef : Nat)
  | inst (classRef : Nat) (objId : Nat)
deriving DecidableEq

instance : Inhabited Value := ⟨Value.num 0⟩

/-- The tag of a value (`args[i]->type` in C). -/
def Value.type : Value → ObjType
  | Value.num _ => ObjType.OBJ_NUM
  | Value.str _ _ => ObjType.OBJ_STRING
  | Value.cls _ => ObjType.OBJ_CLASS
  | Value.inst _ _ => ObjType.OBJ_INSTANCE

/-- The native implementations bound by `registerPrimitives`, as tags
standing for the C function pointers. -/
inductive PrimFn where
  | num_abs
  | num_toString
  | num_minus
  | num_plus
  | num_multiply
  | num_divide
  | string_contains
  | string_count
  | string_toString
  | string_plus
  | io_write
deriving DecidableEq

/-- One method-table slot: empty, or a `METHOD_PRIMITIVE` binding. -/
inductive Method where
  | empty
  | primitive (prim : PrimFn)
deriving DecidableEq

/-- The runtime context `VM`: the two symbol scopes, the class heap with
the references `numClass` and `stringClass` into it, the global slot
array, the `unsupported` sentinel, the allocation counter for instances
and string buffers, and the stdout stream. -/
structure VM where
  symbols : List String
  globalSymbols : List String
  classes : List (List Method)
  numClass : Nat
  stringClass : Nat
  globals : List (Option Value)
  unsupported : Value
  nextId : Nat
  out : List Char
deriving DecidableEq

/-- Modelled from the spec: `makeNumber(float64)` wraps a number payload in
a Number-tagged value (float64 idealized as `Rat`; no claim depends on the
heap identity of number objects, so it is not tracked). -/
def makeNum (value : Rat) : Value := Value.num value

/-- Modelled from the spec: `makeString(owned bytes)` takes ownership of a
heap buffer — here the buffer's allocation identity plus its content. -/
def makeString (bufferId : Nat) (chars : List Char) : Value :=
  Value.str bufferId chars

/-- Modelled from the spec: `makeClass()` allocates a class with an empty
method table; the class heap grows by one and the new index is its
reference. -/
def makeClass (vm : VM) : Nat × VM :=
  (vm.classes.length, { vm with classes := vm.classes ++ [[]] })

/-- Modelled from the spec: `makeInstance(class)` creates an instance of
the given class with a fresh allocation identity. -/
def makeInstance (vm : VM) (classRef : Nat) : Value × VM :=
  (Value.inst classRef vm.nextId, { vm with nextId := vm.nextId + 1 })

/-- Modelled from the spec: first-match scan of a symbol table for a name. -/
def findSymbol : List String → String → Option Nat
  | [], _ => none
  | n :: rest, name =>
    if n = name then some 0 else (findSymbol rest name).map (· + 1)

/-- Modelled from the spec: `ensure(name) -> id` returns the existing id if
`name` was previously registered in this scope, otherwise registers it and
returns a newly assigned id (first-registration order). -/
def ensureSymbol (table : List String) (name : String) : Nat × List String :=
  match findSymbol table name with
  | some i => (i, table)
  | none => (table.length, table ++ [name])

/-- Modelled from the spec: `add(name) -> id` is the same operation as
`ensure` (the spec requires both to be equivalent in observable effect,
idempotent by name). -/
def addSymbol (table : List String) (name : String) : Nat × List String :=
  ensureSymbol table name

/-- Modelled from the spec: grow an array so that index `i` exists, padding
with the default entry (the method/global tables grow, never rehash). -/
def growWith (l : List α) (i : Nat) (d : α) : List α :=
  l ++ List.replicate (i + 1 - l.length) d

/-- Modelled from the spec: store `a` at index `i`, growing first so the
index is in bounds. -/
def setAt (l : List α) (i : Nat) (d : α) (a : α) : List α :=
  (growWith l i d).set i a

/-- Modelled from the spec: `lookup(class, symbolId) -> Method | empty` is
O(1) direct indexing; an index beyond the current length is `empty`. -/
def lookupMethod (vm : VM) (classRef : Nat) (symbol : Nat) : Method :=
  (vm.classes.getD classRef []).getD symbol Method.empty

/-- The `PRIMITIVE(cls, name, prim)` macro: intern `name` in the
method-name scope and store a `METHOD_PRIMITIVE` binding at that slot of
the class's method table, overwriting whatever was there. -/
def PRIMITIVE (vm : VM) (classRef : Nat) (name : String) (prim : PrimFn) : VM :=
  let symbol := (ensureSymbol vm.symbols name).1
  let methods := setAt (vm.classes.getD classRef []) symbol Method.empty (Method.primitive prim)
  { vm with
    symbols := (ensureSymbol vm.symbols name).2
    classes := vm.classes.set classRef methods }

/-- `AS_NUM(v)`: extract the number payload; a mismatched tag is a contract
violation in C, modelled by a junk default. -/
def AS_NUM : Value → Rat
  | Value.num value => value
  | _ => 0

/-- `AS_STRING(v)`: extract the string content; a mismatched tag is a
contract violation in C, modelled by a junk default. -/
def AS_STRING : Value → List Char
  | Value.str _ chars => chars
  | _ => []

/-- Modelled from the spec: `printValue` renders a value's text form (the
exact `%g` numeric format lives outside `src/`; no claim constrains the
rendered text itself). -/
def printValueText : Value → List Char
  | Value.num q =>
    (toString q.num ++ (if q.den = 1 then "" else "/" ++ toString q.den)).toList
  | Value.str _ chars => chars
  | Value.cls r => ("class:" ++ toString r).toList
  | Value.inst r i => ("instance:" ++ toString r ++ ":" ++ toString i).toList

/-- `strncmp`-style prefix test used by `strstr`: does the first list lead
the second? -/
def strPrefixOf : List Char → List Char → Bool
  | [], _ => true
  | _ :: _, [] => false
  | c :: cs, d :: ds => c == d && strPrefixOf cs ds

/-- `strstr(string, search) != NULL`: the needle occurs (contiguously) in
the haystack; the empty needle is found at the start. -/
def strstrFound (search : List Char) : List Char → Bool
  | [] => strPrefixOf search []
  | c :: rest => strPrefixOf search (c :: rest) || strstrFound search rest

/-- `primitive_num_abs`: `value = AS_NUM(args[0]); if (value < 0) value =
-value; return makeNum(value);`. -/
def primitive_num_abs (vm : VM) (args : List Value) : Value × VM :=
  let value := AS_NUM (args.getD 0 default)
  let value := if value < 0 then -value else value
  (makeNum value, vm)

/-- `primitive_num_minus`: tag-check `args[1]`, return the sentinel on
mismatch, else the float64 difference. -/
def primitive_num_minus (vm : VM) (args : List Value) : Value × VM :=
  if (args.getD 1 default).type ≠ ObjType.OBJ_NUM then (vm.unsupported, vm)
  else (makeNum (AS_NUM (args.getD 0 default) - AS_NUM (args.getD 1 default)), vm)

/-- `primitive_num_plus`: tag-check `args[1]`, return the sentinel on
mismatch, else the float64 sum. -/
def primitive_num_plus (vm : VM) (args : List Value) : Value × VM :=
  if (args.getD 1 default).type ≠ ObjType.OBJ_NUM then (vm.unsupported, vm)
  else (makeNum (AS_NUM (args.getD 0 default) + AS_NUM (args.getD 1 default)), vm)

/-- `primitive_num_multiply`: tag-check `args[1]`, return the sentinel on
mismatch, else the float64 product. -/
def primitive_num_multiply (vm : VM) (args : List Value) : Value × VM :=
  if (args.getD 1 default).type ≠ ObjType.OBJ_NUM then (vm.unsupported, vm)
  else (makeNum (AS_NUM (args.getD 0 default) * AS_NUM (args.getD 1 default)), vm)

/-- `primitive_num_divide`: tag-check `args[1]`, return the sentinel on
mismatch, else the float64 quotient — applied unconditionally, with no
zero-divisor check, so division by zero yields whatever the carrier's
division yields and never faults. -/
def primitive_num_divide (vm : VM) (args : List Value) : Value × VM :=
  if (args.getD 1 default).type ≠ ObjType.OBJ_NUM then (vm.unsupported, vm)
  else (makeNum (AS_NUM (args.getD 0 default) / AS_NUM (args.getD 1 default)), vm)

/-- `primitive_string_contains`: reads both operands through `AS_STRING`
with no tag check on `args[1]`; special-cases both strings empty, else
returns `strstr(string, search) != NULL` as a number 1 or 0. -/
def primitive_string_contains (vm : VM) (args : List Value) : Value × VM :=
  let string := AS_STRING (args.getD 0 default)
  let search := AS_STRING (args.getD 1 default)
  if string.length = 0 ∧ search.length = 0 then (makeNum 1, vm)
  else (makeNum (if strstrFound search string then 1 else 0), vm)

/-- `primitive_string_count`: `strlen` of the receiver's content. -/
def primitive_string_count (vm : VM) (args : List Value) : Value × VM :=
  (makeNum ((AS_STRING (args.getD 0 default)).length : Nat), vm)

/-- `primitive_string_toString`: returns the receiver itself. -/
def primitive_string_toString (vm : VM) (args : List Value) : Value × VM :=
  (args.getD 0 default, vm)

/-- `primitive_string_plus`: tag-check `args[1]`, return the sentinel on
mismatch; else `malloc` a fresh buffer of `leftLength + rightLength` bytes
and `strcpy` left then right into it, so its in-bounds content is the
concatenation (the terminating NUL of the second `strcpy` lands one byte
past the allocation, a sizing slip the spec flags; the content handed to
`makeString` is still `left ++ right`). -/
def primitive_string_plus (vm : VM) (args : List Value) : Value × VM :=
  if (args.getD 1 default).type ≠ ObjType.OBJ_STRING then (vm.unsupported, vm)
  else
    let left := AS_STRING (args.getD 0 default)
    let right := AS_STRING (args.getD 1 default)
    let result := vm.nextId
    (makeString result (left ++ right), { vm with nextId := vm.nextId + 1 })

/-- `primitive_io_write`: `printValue(args[1]); printf("\n"); return
args[1];`. -/
def primitive_io_write (vm : VM) (args : List Value) : Value × VM :=
  (args.getD 1 default,
    { vm with out := vm.out ++ printValueText (args.getD 1 default) ++ ['\n'] })

/-- The `GLOBAL(cls, name)` macro: make an instance of `cls`, intern `name`
in the global scope, store the instance at that global slot. -/
def GLOBAL (vm : VM) (classRef : Nat) (name : String) : VM :=
  let obj := (makeInstance vm classRef).1
  let vm1 := (makeInstance vm classRef).2
  let symbol := (addSymbol vm1.globalSymbols name).1
  { vm1 with
    globalSymbols := (addSymbol vm1.globalSymbols name).2
    globals := setAt vm1.globals symbol none (some obj) }

/-- `registerPrimitives(vm)`: bind the numeric and string primitives on
the built-in classes, create the io class, bind its write primitive and
register the "io" global singleton, then create the `unsupported`
sentinel as an instance of a fresh class with nothing bound on it. -/
def registerPrimitives (vm0 : VM) : VM :=
  let vm := PRIMITIVE vm0 vm0.numClass "abs" PrimFn.num_abs
  let vm := PRIMITIVE vm vm.numClass "toString" PrimFn.num_toString
  let vm := PRIMITIVE vm vm.numClass "- " PrimFn.num_minus
  let vm := PRIMITIVE vm vm.numClass "+ " PrimFn.num_plus
  let vm := PRIMITIVE vm vm.numClass "* " PrimFn.num_multiply
  let vm := PRIMITIVE vm vm.numClass "/ " PrimFn.num_divide
  let vm := PRIMITIVE vm vm.stringClass "contains " PrimFn.string_contains
  let vm := PRIMITIVE vm vm.stringClass "count" PrimFn.string_count
  let vm := PRIMITIVE vm vm.stringClass "toString" PrimFn.string_toString
  let vm := PRIMITIVE vm vm.stringClass "+ " PrimFn.string_plus
  let ioClass := (makeClass vm).1
  let vm := (makeClass vm).2
  let vm := PRIMITIVE vm ioClass "write " PrimFn.io_write
  let vm := GLOBAL vm ioClass "io"
  let unsupportedClass := (makeClass vm).1
  let vm := (makeClass vm).2
  { (makeInstance vm unsupportedClass).2 with
    unsupported := (makeInstance vm unsupportedClass).1 }

/-- A concrete runtime context as it stands before bootstrap: the two
built-in classes exist in the heap, nothing else. -/
def vmInit : VM where
  symbols := []
  globalSymbols := []
  classes := [[], []]
  numClass := 0
  stringClass := 1
  globals := []
  unsupported := Value.inst 2 0
  nextId := 5
  out := []

/-! Helper lemmas about the grow-and-set tables. -/

theorem getD_set_self {α : Type} :
    ∀ (l : List α) (i : Nat), i < l.length → ∀ (a d : α), (l.set i a).getD i d = a
  | [], i, h, _, _ => absurd h (by simp)
  | _ :: _, 0, _, a, d => rfl
  | _ :: xs, i + 1, h, a, d =>
    getD_set_self xs i (by simp only [List.length_cons] at h; omega) a d

theorem lt_length_growWith {α : Type} (l : List α) (i : Nat) (d : α) :
    i < (growWith l i d).length := by
  simp only [growWith, List.length_append, List.length_replicate]
  omega

theorem setAt_getD_self {α : Type} (l : List α) (i : Nat) (d a : α) :
    (setAt l i d a).getD i d = a :=
  getD_set_self (growWith l i d) i (lt_length_growWith l i d) a d

theorem getD_concat_length {α : Type} (l : List α) (x d : α) :
    (l ++ [x]).getD l.length d = x := by
  induction l with
  | nil => rfl
  | cons a t ih => rw [List.cons_append, List.length_cons, List.getD_cons_succ, ih]

/-! Helper lemmas about the symbol table. -/

theorem findSymbol_append_self (l : List String) (name : String)
    (h : findSymbol l name = none) :
    findSymbol (l ++ [name]) name = some l.length := by
  induction l with
  | nil => simp [findSymbol]
  | cons n rest ih =>
    by_cases hn : n = name
    · simp [findSymbol, hn] at h
    · simp only [findSymbol, hn, if_neg, if_false] at h ⊢
      rcases hfs : findSymbol rest name with _ | k
      · simp [List.cons_append, findSymbol, hn, ih hfs]
      · simp [hfs] at h

theorem ensureSymbol_twice (table : List String) (name : String) :
    ensureSymbol (ensureSymbol table name).2 name
      = ((ensureSymbol table name).1, (ensureSymbol table name).2) := by
  rcases hfs : findSymbol table name with _ | i
  · simp [ensureSymbol, hfs, findSymbol_append_self table name hfs]
  · simp [ensureSymbol, hfs]

/-- Evaluation shape of `primitive_string_contains`: it always returns a
Number built from the two contents read through `AS_STRING`, with the
state unchanged. -/
theorem string_contains_eval (vm : VM) (x y : Value) :
    primitive_string_contains vm [x, y]
      = (makeNum (if (AS_STRING x).length = 0 ∧ (AS_STRING y).length = 0 then 1
          else if strstrFound (AS_STRING y) (AS_STRING x) then 1 else 0), vm) := by
  simp only [primitive_string_contains, List.getD_cons_zero, List.getD_cons_succ]
  split <;> simp_all

/-- Claim C1: for a Number receiver and a second operand whose tag is not
Number, each of the four binary numeric primitives returns the very
sentinel stored in `vm.unsupported` (identity), leaves the state
unchanged and raises no fault; likewise `string_plus` for a String
receiver and a non-String second operand. -/
theorem C1_binary_type_mismatch_unsupported (vm : VM) (a : Rat) (x : Value)
    (hx : x.type ≠ ObjType.OBJ_NUM)
    (b : Nat) (s : List Char) (y : Value)
    (hy : y.type ≠ ObjType.OBJ_STRING) :
    primitive_num_plus vm [makeNum a, x] = (vm.unsupported, vm)
    ∧ primitive_num_minus vm [makeNum a, x] = (vm.unsupported, vm)
    ∧ primitive_num_multiply vm [makeNum a, x] = (vm.unsupported, vm)
    ∧ primitive_num_divide vm [makeNum a, x] = (vm.unsupported, vm)
    ∧ primitive_string_plus vm [Value.str b s, y] = (vm.unsupported, vm) := by
  refine ⟨?_, ?_, ?_, ?_, ?_⟩ <;>
    simp [primitive_num_plus, primitive_num_minus, primitive_num_multiply,
      primitive_num_divide, primitive_string_plus, hx, hy]

/-- Witness for C1: Number receiver 1 with a String second operand, and a
String receiver with a Number second operand, in a concrete context. -/
theorem C1_binary_type_mismatch_unsupported_witness :
    ((Value.str 3 ['a']).type ≠ ObjType.OBJ_NUM
      ∧ (Value.num 2).type ≠ ObjType.OBJ_STRING)
    ∧ (primitive_num_plus vmInit [makeNum 1, Value.str 3 ['a']] = (vmInit.unsupported, vmInit)
      ∧ primitive_num_minus vmInit [makeNum 1, Value.str 3 ['a']] = (vmInit.unsupported, vmInit)
      ∧ primitive_num_multiply vmInit [makeNum 1, Value.str 3 ['a']] = (vmInit.unsupported, vmInit)
      ∧ primitive_num_divide vmInit [makeNum 1, Value.str 3 ['a']] = (vmInit.unsupported, vmInit)
      ∧ primitive_string_plus vmInit [Value.str 4 ['b'], Value.num 2] = (vmInit.unsupported, vmInit)) :=
  ⟨⟨by decide, by decide⟩,
    C1_binary_type_mismatch_unsupported vmInit 1 (Value.str 3 ['a']) (by decide)
      4 ['b'] (Value.num 2) (by decide)⟩

/-- Claim C2: on two Number operands each numeric primitive returns the
Number whose payload is the corresponding carrier (float64) operation on
the payloads; division applies the carrier's division unconditionally,
with no zero-divisor check, so a zero divisor follows the carrier's own
semantics rather than faulting. -/
theorem C2_numeric_arithmetic (vm : VM) (a b : Rat) :
    primitive_num_plus vm [makeNum a, makeNum b] = (makeNum (a + b), vm)
    ∧ primitive_num_minus vm [makeNum a, makeNum b] = (makeNum (a - b), vm)
    ∧ primitive_num_multiply vm [makeNum a, makeNum b] = (makeNum (a * b), vm)
    ∧ primitive_num_divide vm [makeNum a, makeNum b] = (makeNum (a / b), vm) := by
  refine ⟨?_, ?_, ?_, ?_⟩ <;>
    simp [primitive_num_plus, primitive_num_minus, primitive_num_multiply,
      primitive_num_divide, makeNum, AS_NUM, Value.type]

/-- Claim C5: `num_abs` returns a Number `r` with `r ≥ 0`, equal to the
argument when it is nonnegative and to its negation when it is negative. -/
theorem C5_num_abs (vm : VM) (a : Rat) :
    ∃ r : Rat, primitive_num_abs vm [makeNum a] = (makeNum r, vm)
      ∧ 0 ≤ r ∧ (0 ≤ a → r = a) ∧ (a < 0 → r = -a) := by
  refine ⟨if a < 0 then -a else a,
    by simp [primitive_num_abs, makeNum, AS_NUM], ?_, ?_, ?_⟩
  · by_cases h : a < 0 <;> simp [h] <;> linarith
  · intro h0
    simp [not_lt.mpr h0]
  · intro h
    simp [h]

/-- Claim C6: the three concrete `contains` cases — the empty string
contains the empty string, "hello" contains "ell", "hello" does not
contain "xyz". -/
theorem C6_contains_cases (vm : VM) (b1 b2 : Nat) :
    primitive_string_contains vm [Value.str b1 [], Value.str b2 []]
      = (makeNum 1, vm)
    ∧ primitive_string_contains vm
        [Value.str b1 ['h','e','l','l','o'], Value.str b2 ['e','l','l']]
      = (makeNum 1, vm)
    ∧ primitive_string_contains vm
        [Value.str b1 ['h','e','l','l','o'], Value.str b2 ['x','y','z']]
      = (makeNum 0, vm) :=
  ⟨rfl, rfl, rfl⟩

/-- Claim C7: `io_write` returns its argument `args[1]` unchanged as the
result value, after appending the argument's text form and a single
newline to the output stream. -/
theorem C7_io_write_returns_argument (vm : VM) (recv v : Value) :
    primitive_io_write vm [recv, v]
      = (v, { vm with out := vm.out ++ printValueText v ++ ['\n'] }) := rfl

/-- Claim C8: for every String receiver, `contains` with an empty-string
second operand yields 1 — the empty-receiver case through the explicit
corner case, every other receiver because `strstr` finds the empty needle
at the start. -/
theorem C8_contains_empty_needle (vm : VM) (b1 b2 : Nat) (s : List Char) :
    primitive_string_contains vm [Value.str b1 s, Value.str b2 []]
      = (makeNum 1, vm) := by
  cases s with
  | nil => rfl
  | cons c rest =>
    simp [primitive_string_contains, AS_STRING, strstrFound, strPrefixOf]

/-- Claim C9: `string_contains` reads its second operand with no tag
check, always returns a Number exactly 1 or exactly 0 with the state
unchanged, and — the sentinel being an Instance — never returns the
Unsupported sentinel. -/
theorem C9_contains_never_unsupported (vm : VM) (b1 : Nat) (s : List Char) (v : Value)
    (h : vm.unsupported.type = ObjType.OBJ_INSTANCE) :
    ((primitive_string_contains vm [Value.str b1 s, v]).1 = makeNum 1
      ∨ (primitive_string_contains vm [Value.str b1 s, v]).1 = makeNum 0)
    ∧ (primitive_string_contains vm [Value.str b1 s, v]).2 = vm
    ∧ (primitive_string_contains vm [Value.str b1 s, v]).1 ≠ vm.unsupported := by
  rw [string_contains_eval]
  have htype : ∀ q : Rat, (makeNum q).type = ObjType.OBJ_NUM := fun _ => rfl
  refine ⟨?_, rfl, ?_⟩
  · split
    · exact Or.inl rfl
    · split
      · exact Or.inl rfl
      · exact Or.inr rfl
  · intro heq
    have hcontra := congrArg Value.type heq
    rw [htype, h] at hcontra
    exact absurd hcontra (by decide)

/-- Witness for C9 at a concrete context whose sentinel is an instance. -/
theorem C9_contains_never_unsupported_witness :
    vmInit.unsupported.type = ObjType.OBJ_INSTANCE
    ∧ (((primitive_string_contains vmInit [Value.str 0 ['h'], Value.num 7]).1 = makeNum 1
        ∨ (primitive_string_contains vmInit [Value.str 0 ['h'], Value.num 7]).1 = makeNum 0)
      ∧ (primitive_string_contains vmInit [Value.str 0 ['h'], Value.num 7]).2 = vmInit
      ∧ (primitive_string_contains vmInit [Value.str 0 ['h'], Value.num 7]).1 ≠ vmInit.unsupported) :=
  ⟨by decide,
    C9_contains_never_unsupported vmInit 0 ['h'] (Value.num 7) (by decide)⟩

/-- Claim C3: concatenating two Strings returns a new String whose content
is the first operand's bytes followed by the second's, in a freshly
allocated buffer whose identity differs from both operands' buffers. -/
theorem C3_string_concat_fresh (vm : VM) (b1 b2 : Nat) (s t : List Char)
    (h1 : b1 < vm.nextId) (h2 : b2 < vm.nextId) :
    primitive_string_plus vm [Value.str b1 s, Value.str b2 t]
      = (Value.str vm.nextId (s ++ t), { vm with nextId := vm.nextId + 1 })
    ∧ vm.nextId ≠ b1 ∧ vm.nextId ≠ b2 := by
  refine ⟨?_, Nat.ne_of_gt h1, Nat.ne_of_gt h2⟩
  simp [primitive_string_plus, AS_STRING, makeString, Value.type]

/-- Witness for C3: concatenate "a" and "b" held in live buffers 0 and 1
of a concrete context. -/
theorem C3_string_concat_fresh_witness :
    (0 < vmInit.nextId ∧ 1 < vmInit.nextId)
    ∧ (primitive_string_plus vmInit [Value.str 0 ['a'], Value.str 1 ['b']]
        = (Value.str vmInit.nextId (['a'] ++ ['b']), { vmInit with nextId := vmInit.nextId + 1 })
      ∧ vmInit.nextId ≠ 0 ∧ vmInit.nextId ≠ 1) :=
  ⟨⟨by decide, by decide⟩,
    C3_string_concat_fresh vmInit 0 1 ['a'] ['b'] (by decide) (by decide)⟩

/-- `getD` at the position of a single appended element, stated with the
index given by any expression equal to the length. -/
theorem getD_append_length {α : Type} (l : List α) (x d : α) (n : Nat)
    (h : n = l.length) : (l ++ [x]).getD n d = x :=
  h ▸ getD_concat_length l x d

/-- `setAt` followed by optional indexing at the same position yields the
stored element, stated in `getElem?` normal form. -/
theorem setAt_getElem?_getD {α : Type} (l : List α) (i : Nat) (d a : α) :
    (setAt l i d a)[i]?.getD d = a := by
  rw [← List.getD_eq_getElem?_getD]
  exact setAt_getD_self l i d a

/-- Claim C4: binding a primitive under a name already bound on the same
class stores the new implementation at the same method-table slot — the
slot index interning the name yields — overwriting the prior binding, so
lookup of that name observes the second binding. -/
theorem C4_rebind_last_write_wins (vm : VM) (classRef : Nat) (name : String)
    (p1 p2 : PrimFn) (hc : classRef < vm.classes.length) :
    (ensureSymbol (PRIMITIVE vm classRef name p1).symbols name).1
        = (ensureSymbol vm.symbols name).1
    ∧ lookupMethod (PRIMITIVE (PRIMITIVE vm classRef name p1) classRef name p2)
        classRef (ensureSymbol vm.symbols name).1
      = Method.primitive p2 := by
  have e2 := ensureSymbol_twice vm.symbols name
  constructor
  · show (ensureSymbol (ensureSymbol vm.symbols name).2 name).1
        = (ensureSymbol vm.symbols name).1
    rw [e2]
  · show ((((vm.classes.set classRef _).set classRef
        (setAt ((vm.classes.set classRef _).getD classRef [])
          (ensureSymbol (ensureSymbol vm.symbols name).2 name).1 Method.empty
          (Method.primitive p2)))).getD classRef []).getD
        (ensureSymbol vm.symbols name).1 Method.empty = Method.primitive p2
    rw [e2, getD_set_self _ classRef (by simpa using hc), setAt_getD_self]

/-- Witness for C4: rebind the "+ " slot of the Number class of a concrete
context from `num_plus` to `num_minus` and look the slot up. -/
theorem C4_rebind_last_write_wins_witness :
    (0 : Nat) < vmInit.classes.length
    ∧ ((ensureSymbol (PRIMITIVE vmInit 0 "+ " PrimFn.num_plus).symbols "+ ").1
        = (ensureSymbol vmInit.symbols "+ ").1
      ∧ lookupMethod
          (PRIMITIVE (PRIMITIVE vmInit 0 "+ " PrimFn.num_plus) 0 "+ " PrimFn.num_minus)
          0 (ensureSymbol vmInit.symbols "+ ").1
        = Method.primitive PrimFn.num_minus) :=
  ⟨by decide,
    C4_rebind_last_write_wins vmInit 0 "+ " PrimFn.num_plus PrimFn.num_minus (by decide)⟩

/-- Claim C10: after `registerPrimitives`, the sentinel `vm.unsupported`
is the one instance of the freshly created unsupported class, whose
method table is empty; the "io" global holds the instance allocated just
before it; the sentinel is identity-distinct from that io singleton and
— by tag — from every value `makeNum` or `makeString` produces. -/
theorem C10_unsupported_sentinel (vm0 : VM) :
    (registerPrimitives vm0).unsupported
        = Value.inst (vm0.classes.length + 1) (vm0.nextId + 1)
    ∧ (registerPrimitives vm0).classes.getD (vm0.classes.length + 1) [] = []
    ∧ (registerPrimitives vm0).globals.getD
        (ensureSymbol vm0.globalSymbols "io").1 none
      = some (Value.inst vm0.classes.length vm0.nextId)
    ∧ Value.inst (vm0.classes.length + 1) (vm0.nextId + 1)
        ≠ Value.inst vm0.classes.length vm0.nextId
    ∧ (∀ q : Rat, (registerPrimitives vm0).unsupported ≠ makeNum q)
    ∧ (∀ (b : Nat) (cs : List Char), (registerPrimitives vm0).unsupported ≠ makeString b cs)
    ∧ (registerPrimitives vm0).unsupported.type = ObjType.OBJ_INSTANCE := by
  refine ⟨?_, ?_, ?_, by simp, ?_, ?_, ?_⟩
  · simp [registerPrimitives, PRIMITIVE, GLOBAL, makeClass, makeInstance, addSymbol]
  · simp [registerPrimitives, PRIMITIVE, GLOBAL, makeClass, makeInstance, addSymbol]
    rw [List.getElem_append_right (by simp)]
    simp
  · simp [registerPrimitives, PRIMITIVE, GLOBAL, makeClass, makeInstance, addSymbol,
      setAt_getElem?_getD]
  · simp [registerPrimitives, PRIMITIVE, GLOBAL, makeClass, makeInstance, addSymbol,
      makeNum]
  · simp [registerPrimitives, PRIMITIVE, GLOBAL, makeClass, makeInstance, addSymbol,
      makeString]
  · simp [registerPrimitives, PRIMITIVE, GLOBAL, makeClass, makeInstance, addSymbol,
      Value.type]

end WrenPrim
